import Mathlib

/-!
Verification development for a command-line client of a remote
text-to-video generation service (`kling_api.py`, `generate_jwt.py`,
`generate_video.py`).

The Python source is shallowly embedded: JSON values become an inductive
type, stateful methods of the `KlingAPI` class become explicit
state-passing functions, time is an integer number of seconds supplied
explicitly, the network is a parameter (a scripted response per request),
and raised Python exceptions become `Except`/sum results.  Field-access
semantics of Python (`dict.get`, truthiness, equality against `0`,
stringification in f-strings) are modelled by dedicated functions so that
ill-shaped remote responses behave exactly as they would in Python
(including raising `AttributeError` when `.get` is called on a non-dict).
-/

/-- JSON values as produced by `response.json()`.  Numbers are modelled as
integers (all numeric fields used by the client are integral); object keys
are assumed distinct, matching Python `dict`s obtained from JSON parsing. -/
inductive Json where
  | null : Json
  | bool : Bool → Json
  | num : Int → Json
  | str : String → Json
  | arr : List Json → Json
  | obj : List (String × Json) → Json

mutual
/-- Structural equality of JSON values (Python `==` restricted to values
of the same shape; the client only ever compares a status value against
string literals, for which Python `==` agrees with structural equality:
a non-string never equals a string in Python). -/
def Json.beq : Json → Json → Bool
  | Json.null, Json.null => true
  | Json.bool a, Json.bool b => a == b
  | Json.num a, Json.num b => a == b
  | Json.str a, Json.str b => a == b
  | Json.arr a, Json.arr b => Json.beqList a b
  | Json.obj a, Json.obj b => Json.beqObj a b
  | _, _ => false

/-- Element-wise equality of JSON lists. -/
def Json.beqList : List Json → List Json → Bool
  | [], [] => true
  | a :: as, b :: bs => Json.beq a b && Json.beqList as bs
  | _, _ => false

/-- Entry-wise equality of JSON object entry lists. -/
def Json.beqObj : List (String × Json) → List (String × Json) → Bool
  | [], [] => true
  | (k1, v1) :: as, (k2, v2) :: bs => k1 == k2 && Json.beq v1 v2 && Json.beqObj as bs
  | _, _ => false
end

/-- Python truthiness of a JSON value (`if x:`): `None`, `False`, `0`,
`""`, `[]` and `{}` are falsy, everything else truthy. -/
def pythonTruthy : Json → Bool
  | Json.null => false
  | Json.bool b => b
  | Json.num n => n != 0
  | Json.str s => s != ""
  | Json.arr l => !l.isEmpty
  | Json.obj l => !l.isEmpty

/-- Python truthiness of a value that may be `None` at the Option level
(e.g. the result of `check_status`, which returns a JSON body or `None`). -/
def optTruthy : Option Json → Bool
  | none => false
  | some j => pythonTruthy j

/-- Python truthiness of an optional string (a parameter that may be
`None`; the empty string is also falsy). -/
def strOptTruthy : Option String → Bool
  | none => false
  | some s => s != ""

/-- Python `a or b` on optional string values: yields `a` when `a` is
truthy, otherwise `b` (used for `access_key or os.getenv(...)`). -/
def pyOrOpt (a b : Option String) : Option String :=
  if strOptTruthy a then a else b

mutual
/-- Python `str()` of a JSON value, as interpolated by an f-string.
Scalars are rendered exactly as Python renders them; for containers the
rendering is element-wise with Python-style brackets (the quoting Python
`repr` adds around nested strings is not reproduced; no client behaviour
modelled here depends on container renderings). -/
def pyStr : Json → String
  | Json.null => "None"
  | Json.bool true => "True"
  | Json.bool false => "False"
  | Json.num n => toString n
  | Json.str s => s
  | Json.arr l => "[" ++ pyStrList l ++ "]"
  | Json.obj l => "\x7b" ++ pyStrObj l ++ "\x7d"

/-- Comma-separated rendering of a JSON list. -/
def pyStrList : List Json → String
  | [] => ""
  | [j] => pyStr j
  | j :: rest => pyStr j ++ ", " ++ pyStrList rest

/-- Comma-separated rendering of JSON object entries. -/
def pyStrObj : List (String × Json) → String
  | [] => ""
  | [(k, v)] => k ++ ": " ++ pyStr v
  | (k, v) :: rest => k ++ ": " ++ pyStr v ++ ", " ++ pyStrObj rest
end

/-- Python `x.get(k, default)`: succeeds with the looked-up value (or the
default) when `x` is a dict, raises `AttributeError` otherwise. -/
def pyGetD (x : Json) (k : String) (default : Json) : Except String Json :=
  match x with
  | Json.obj kvs => Except.ok ((kvs.lookup k).getD default)
  | _ => Except.error "AttributeError"

/-- Python `x.get(k)` (default `None`). -/
def pyGet (x : Json) (k : String) : Except String Json :=
  pyGetD x k Json.null

/-- Python `v != 0` for a JSON value: numbers compare numerically,
booleans compare as 0/1 (`False == 0` in Python), every non-numeric
value is `!= 0`. -/
def pyNeZero : Json → Bool
  | Json.num n => n != 0
  | Json.bool b => b
  | _ => true

example : pyGetD (Json.obj [("a", Json.num 1)]) "b" (Json.str "") = Except.ok (Json.str "") := rfl

example : pyGetD (Json.str "x") "b" (Json.str "") = Except.error "AttributeError" := rfl

example : pyNeZero (Json.bool false) = false := rfl

/-! ## Token provider (`generate_jwt.py` and `KlingAPI._get_jwt_token`) -/

/-- A JWT as built by `encode_jwt_token` in `generate_jwt.py`: header
fields `alg`/`typ`, payload fields `iss`/`exp`/`nbf`, signed with the
secret key.  HS256 signing is deterministic and the serialized token is
an injective function of (header, payload, key), so two model tokens are
equal exactly when the real token strings are bit-identical. -/
structure JwtToken where
  alg : String
  typ : String
  iss : String
  exp : Int
  nbf : Int
  signing_key : String
deriving DecidableEq

/-- `encode_jwt_token(ak, sk)` from `generate_jwt.py`, with the call to
`int(time.time())` made explicit as the integer argument `now`:
`exp = now + 1800`, `nbf = now - 5`. -/
def encode_jwt_token (ak sk : String) (now : Int) : JwtToken :=
  { alg := "HS256", typ := "JWT"
    iss := ak
    exp := now + 1800
    nbf := now - 5
    signing_key := sk }

/-- The mutable state of a `KlingAPI` instance: the two keys fixed at
construction, plus the token cache (`_jwt_token`, `_jwt_generated_time`).
The cached token is `Option JwtToken` because `_jwt_token` is initially
`None`; a real encoded token is a non-empty string, hence always truthy. -/
structure KlingState where
  access_key : String
  secret_key : String
  jwt_token : Option JwtToken
  jwt_generated_time : Int
deriving DecidableEq

/-- `KlingAPI.__init__`: resolve each key as `param or os.getenv(...)`
(Python `or`, so an empty-string parameter falls through to the
environment), then raise `ValueError` if either resolved key is falsy
(absent or empty).  Environment variables are passed explicitly; `none`
means the variable is unset.  The second component of the result is the
list of network requests issued during construction (none in the source).
-/
def kling_init (access_key secret_key env_access env_secret : Option String) :
    Except String KlingState × List Unit :=
  let ak := pyOrOpt access_key env_access
  let sk := pyOrOpt secret_key env_secret
  if !strOptTruthy ak || !strOptTruthy sk then
    (Except.error "ValueError: Access key and secret key must be provided either as parameters or environment variables (KLING_ACCESS_KEY, KLING_SECRET)", [])
  else
    (Except.ok { access_key := ak.getD "", secret_key := sk.getD ""
                 jwt_token := none, jwt_generated_time := 0 }, [])

/-- `KlingAPI._get_jwt_token`, with `time.time()` passed explicitly:
refresh when the cache is falsy (`None`) or more than 1500 seconds old,
otherwise return the cached token unchanged. -/
def _get_jwt_token (s : KlingState) (now : Int) : JwtToken × KlingState :=
  match s.jwt_token with
  | none =>
    let t := encode_jwt_token s.access_key s.secret_key now
    (t, { s with jwt_token := some t, jwt_generated_time := now })
  | some t =>
    if now - s.jwt_generated_time > 1500 then
      let t2 := encode_jwt_token s.access_key s.secret_key now
      (t2, { s with jwt_token := some t2, jwt_generated_time := now })
    else
      (t, s)

/-- A header value: either the literal string `"Bearer <token>"` for a
given token (serialized tokens are injective in the model token, so two
bearer values are equal exactly when the header strings are), or a plain
string. -/
inductive HeaderValue where
  | bearerToken : JwtToken → HeaderValue
  | plain : String → HeaderValue
deriving DecidableEq

/-- `KlingAPI._get_headers`: Authorization with the (possibly refreshed)
bearer token, plus the JSON content type. -/
def _get_headers (s : KlingState) (now : Int) :
    List (String × HeaderValue) × KlingState :=
  let (tok, s2) := _get_jwt_token s now
  ([("Authorization", HeaderValue.bearerToken tok),
    ("Content-Type", HeaderValue.plain "application/json")], s2)

/-- One HTTP request as issued through the `requests` library; `headers`
are the explicitly passed headers (`requests.get(url, stream=True)` in
`download_video` passes none). -/
structure HttpRequest where
  method : String
  url : String
  headers : List (String × HeaderValue)
  payload : Option Json
  stream : Bool

/-- The remote side of one request, as observed by the client: a 2xx
response with a JSON body, a non-2xx response (status code, body parsed
as JSON if possible, raw text), or an exception with no response
attached. -/
inductive TransportOutcome where
  | success : Json → TransportOutcome
  | httpError : Nat → Option Json → String → TransportOutcome
  | connFailure : String → TransportOutcome

/-- `self.base_url` fixed by `__init__`. -/
def base_url : String := "https://api-singapore.klingai.com/v1"

/-- The error message built in the `except` blocks of `create_video` /
`extend_video`: prefer the `message` field of a parsed JSON error body,
then the `error` field, then the whole parsed body, then the raw text;
append status code and URL when a response is attached. -/
def errorDetailMsg (context : String) (t : TransportOutcome) (url : String) : String :=
  match t with
  | TransportOutcome.connFailure e => context ++ ": " ++ e
  | TransportOutcome.success _ => context
  | TransportOutcome.httpError status body text =>
    let base :=
      match body with
      | some (Json.obj kvs) =>
        match kvs.lookup "message" with
        | some m => context ++ ": " ++ pyStr m
        | none =>
          match kvs.lookup "error" with
          | some m => context ++ ": " ++ pyStr m
          | none => context ++ ": " ++ pyStr (Json.obj kvs)
      | some j => context ++ ": " ++ pyStr j
      | none => context ++ ": " ++ text
    base ++ " (Status: " ++ toString status ++ ", URL: " ++ url ++ ")"

/-- `KlingAPI.create_video`: validate the prompt length (Python `len` on
a `str` counts code points, as `String.length` does), then issue exactly
one POST to `/videos/text2video` with the standard headers and the JSON
payload; a 2xx response yields its JSON body, anything else raises
`RequestException` with the detailed message.  Returns (outcome, list of
requests issued, updated client state). -/
def create_video (s : KlingState) (now : Int) (prompt model_name aspect_ratio mode duration : String)
    (remote : TransportOutcome) :
    Except String Json × List HttpRequest × KlingState :=
  if prompt.length > 2500 then
    (Except.error ("ValueError: Prompt length (" ++ toString prompt.length ++ ") exceeds 2500 character limit"), [], s)
  else
    let url := base_url ++ "/videos/text2video"
    let (headers, s2) := _get_headers s now
    let payload := Json.obj [("model_name", Json.str model_name), ("prompt", Json.str prompt),
                             ("aspect_ratio", Json.str aspect_ratio), ("mode", Json.str mode),
                             ("duration", Json.str duration)]
    let req : HttpRequest := { method := "POST", url := url, headers := headers,
                               payload := some payload, stream := false }
    match remote with
    | TransportOutcome.success body => (Except.ok body, [req], s2)
    | t => (Except.error (errorDetailMsg "Video creation failed" t url), [req], s2)

/-- `KlingAPI.extend_video`: validate the optional prompt (only when
truthy), then issue exactly one POST to `/videos/video-extend`. -/
def extend_video (s : KlingState) (now : Int) (video_id : String) (prompt : Option String)
    (remote : TransportOutcome) :
    Except String Json × List HttpRequest × KlingState :=
  if strOptTruthy prompt && (prompt.getD "").length > 2500 then
    (Except.error ("ValueError: Prompt length (" ++ toString (prompt.getD "").length ++ ") exceeds 2500 character limit"), [], s)
  else
    let url := base_url ++ "/videos/video-extend"
    let (headers, s2) := _get_headers s now
    let payload := Json.obj ([("video_id", Json.str video_id)] ++
      (if strOptTruthy prompt then [("prompt", Json.str (prompt.getD ""))] else []))
    let req : HttpRequest := { method := "POST", url := url, headers := headers,
                               payload := some payload, stream := false }
    match remote with
    | TransportOutcome.success body => (Except.ok body, [req], s2)
    | t => (Except.error (errorDetailMsg "Video extension failed" t url), [req], s2)

/-- `KlingAPI.check_status`: one GET to the operation-specific status URL
with the standard headers; a 2xx response yields its JSON body, any
`RequestException` is caught, printed, and turned into `None`. -/
def check_status (s : KlingState) (now : Int) (task_id operation : String)
    (remote : TransportOutcome) :
    Option Json × List HttpRequest × KlingState :=
  let url :=
    if operation = "extension" then base_url ++ "/videos/video-extend/" ++ task_id
    else base_url ++ "/videos/text2video/" ++ task_id
  let (headers, s2) := _get_headers s now
  let req : HttpRequest := { method := "GET", url := url, headers := headers,
                             payload := none, stream := false }
  match remote with
  | TransportOutcome.success body => (some body, [req], s2)
  | _ => (none, [req], s2)

/-! ## Task monitor (`KlingAPI.monitor_task`)

The loop body of `monitor_task` depends on the remote only through the
value `check_status` returned for that iteration, so the remote is
modelled as a script assigning to each poll index the `check_status`
result (`none` for a transport failure, `some body` for a parsed 2xx
body).  Time is counted in seconds and advances only at
`time.sleep(check_interval)`; each continuing iteration sleeps exactly
once, so the elapsed time at the start of iteration `i` is
`i * check_interval`. -/

/-- What one iteration of the `monitor_task` loop does with the
`check_status` result, translated clause by clause from the source:
falsy response → sleep and retry; `code != 0` (Python comparison) →
return `None`; then read `data`, `task_status`, `task_status_msg` with
`.get` (raising on non-dicts); `succeed` → return
`data.task_result.videos` (default `[]`); `failed` → return `None`;
`submitted`/`processing`/anything else → sleep and retry. -/
inductive StepOut where
  | again : StepOut
  | ret : Option Json → StepOut
  | raise : String → StepOut

def pollStep (resp : Option Json) : StepOut :=
  match resp with
  | none => StepOut.again
  | some r =>
    if !pythonTruthy r then StepOut.again
    else
      match pyGet r "code" with
      | Except.error e => StepOut.raise e
      | Except.ok code =>
        if pyNeZero code then StepOut.ret none
        else
          match pyGetD r "data" (Json.obj []) with
          | Except.error e => StepOut.raise e
          | Except.ok data =>
            match pyGetD data "task_status" (Json.str "") with
            | Except.error e => StepOut.raise e
            | Except.ok ts =>
              match pyGetD data "task_status_msg" (Json.str "") with
              | Except.error e => StepOut.raise e
              | Except.ok _ =>
                if Json.beq ts (Json.str "succeed") then
                  match pyGetD data "task_result" (Json.obj []) with
                  | Except.error e => StepOut.raise e
                  | Except.ok task_result =>
                    match pyGetD task_result "videos" (Json.arr []) with
                    | Except.error e => StepOut.raise e
                    | Except.ok videos => StepOut.ret (some videos)
                else if Json.beq ts (Json.str "failed") then StepOut.ret none
                else StepOut.again

/-- Outcome of a whole `monitor_task` run: `out v polls elapsed` is a
normal return of the Python value `v` (`none` = Python `None`) after
`polls` calls to `check_status` with `elapsed` seconds spent sleeping;
`raised e polls elapsed` is an uncaught Python exception; `fuelOut` is
the artificial fuel-exhaustion marker, proved unreachable below for any
positive `check_interval`. -/
inductive MonResult where
  | out : Option Json → Nat → Nat → MonResult
  | raised : String → Nat → Nat → MonResult
  | fuelOut : MonResult

/-- The `while time.time() - start_time < max_wait_time` loop: at poll
index `i` the elapsed time is `i * check_interval`; when the deadline is
reached the loop falls through and returns `None` (timeout). -/
def monitorGo (script : Nat → Option Json) (check_interval max_wait_time : Nat) :
    Nat → Nat → MonResult
  | fuel, i =>
    if max_wait_time ≤ i * check_interval then
      MonResult.out none i (i * check_interval)
    else
      match fuel with
      | 0 => MonResult.fuelOut
      | Nat.succ f =>
        match pollStep (script i) with
        | StepOut.again => monitorGo script check_interval max_wait_time f (i + 1)
        | StepOut.ret v => MonResult.out v (i + 1) (i * check_interval)
        | StepOut.raise e => MonResult.raised e (i + 1) (i * check_interval)

/-- `KlingAPI.monitor_task` over a scripted remote.  The fuel
`max_wait_time + 1` is sufficient whenever `check_interval > 0`
(`monitor_terminates_within_deadline` below). -/
def monitor_task (script : Nat → Option Json) (check_interval max_wait_time : Nat) : MonResult :=
  monitorGo script check_interval max_wait_time (max_wait_time + 1) 0

/-- Seconds slept before the run ended. -/
def monElapsed : MonResult → Nat
  | MonResult.out _ _ e => e
  | MonResult.raised _ _ e => e
  | MonResult.fuelOut => 0

/-- Number of `check_status` calls the run made. -/
def monPolls : MonResult → Nat
  | MonResult.out _ p _ => p
  | MonResult.raised _ p _ => p
  | MonResult.fuelOut => 0

/-! ## Result materializer (`KlingAPI.download_video`) -/

/-- The remote side of one streamed artifact download: the initial
request raises, the response status is non-2xx (`raise_for_status`
raises before the file is opened), or a stream of chunks is delivered
followed by either a clean end (`completed = true`) or a
`RequestException` mid-stream (`completed = false`). -/
inductive DownloadResp where
  | connFailure : DownloadResp
  | httpError : DownloadResp
  | stream : List (List Nat) → Bool → DownloadResp

/-- Result of `download_video`: the Python return value (`some path` or
`None`), the byte content left at `results_dir/filename` afterwards
(`none` = no file; the argument `preexisting` is what was there before
the call), and the HTTP request issued. -/
structure DownloadOutcome where
  ret : Option String
  fileContent : Option (List (List Nat))
  req : HttpRequest

/-- `KlingAPI.download_video`: `mkdir` the results directory, open
`results_dir/filename` for writing only after `raise_for_status`
passes, write each delivered chunk, catch any `RequestException` and
return `None`.  A failure before streaming leaves the path untouched; a
failure mid-stream leaves the chunks written so far on disk (`open`
with mode `wb` truncates any preexisting file first). -/
def download_video (url : Json) (filename results_dir : String)
    (preexisting : Option (List (List Nat))) (remote : DownloadResp) : DownloadOutcome :=
  let file_path := results_dir ++ "/" ++ filename
  let req : HttpRequest := { method := "GET", url := pyStr url, headers := [],
                             payload := none, stream := true }
  match remote with
  | DownloadResp.connFailure => { ret := none, fileContent := preexisting, req := req }
  | DownloadResp.httpError => { ret := none, fileContent := preexisting, req := req }
  | DownloadResp.stream chunks completed =>
    if completed then { ret := some file_path, fileContent := some chunks, req := req }
    else { ret := none, fileContent := some chunks, req := req }

/-! ## Status check with download (`KlingAPI.check_and_download`) -/

/-- Python `enumerate(videos)` for an arbitrary JSON value: lists
enumerate their elements, strings their one-character substrings, dicts
their keys; `None`/booleans/numbers raise `TypeError`. -/
def enumJson : Json → Except String (List Json)
  | Json.arr l => Except.ok l
  | Json.str s => Except.ok (s.toList.map (fun c => Json.str c.toString))
  | Json.obj kvs => Except.ok (kvs.map (fun kv => Json.str kv.1))
  | _ => Except.error "TypeError"

/-- The printing loop over completed videos (`video.get` with defaults
etc.): it raises `AttributeError` at the first non-dict element and has
no other observable effect. -/
def printLoopCheck : List Json → Except String Unit
  | [] => Except.ok ()
  | Json.obj _ :: rest => printLoopCheck rest
  | _ :: _ => Except.error "AttributeError"

/-- The filename chosen for the `i`-th (0-based) of `numVideos` videos in
`check_and_download`: with a truthy `filename_prefix` it is
`<pfx>_<i+1>.mp4` when there are several videos and `<pfx>.mp4`
otherwise; with no (or an empty) prefix it is `<video_id>_.mp4` where
`video_id` is the `id` field of the video, defaulted to `video_<i+1>`. -/
def videoFilename (namePfx : Option String) (numVideos : Nat) (i : Nat) (video_id : Json) : String :=
  if strOptTruthy namePfx then
    if numVideos > 1 then (namePfx.getD "") ++ "_" ++ toString (i + 1) ++ ".mp4"
    else (namePfx.getD "") ++ ".mp4"
  else
    pyStr video_id ++ "_.mp4"

/-- The download loop of `check_and_download`: for each video read `url`
(default `None`) and `id` (default `video_<i+1>`), and when the URL is
truthy download to the derived filename, collecting the paths of the
downloads that succeeded.  `dl i` scripts the remote behaviour of the
`i`-th download. -/
def downloadLoop (namePfx : Option String) (results_dir : String) (dl : Nat → DownloadResp)
    (numVideos : Nat) : List Json → Nat → Except String (List String)
  | [], _ => Except.ok []
  | v :: rest, i =>
    match pyGet v "url" with
    | Except.error e => Except.error e
    | Except.ok video_url =>
      match pyGetD v "id" (Json.str ("video_" ++ toString (i + 1))) with
      | Except.error e => Except.error e
      | Except.ok video_id =>
        match downloadLoop namePfx results_dir dl numVideos rest (i + 1) with
        | Except.error e => Except.error e
        | Except.ok tail =>
          if pythonTruthy video_url then
            let filename := videoFilename namePfx numVideos i video_id
            match (download_video video_url filename results_dir none (dl i)).ret with
            | some p => Except.ok (p :: tail)
            | none => Except.ok tail
          else Except.ok tail

/-- The `result` dict built by `check_and_download`. -/
structure CheckOutcome where
  status : Json
  message : Json
  videos : Json
  downloaded_files : List String

/-- `KlingAPI.check_and_download` given the `check_status` result
(`none` = request failed), translated branch by branch: falsy response
or nonzero `code` → an `error` outcome; otherwise record
`task_status`/`task_status_msg`; on `succeed` record the videos and,
when they are truthy, run the printing loop (which can raise) and, when
`download` is set, the download loop. -/
def check_and_download (resp : Option Json) (download : Bool) (namePfx : Option String)
    (results_dir : String) (dl : Nat → DownloadResp) : Except String CheckOutcome :=
  match resp with
  | none =>
    Except.ok { status := Json.str "error", message := Json.str "Failed to check status",
                videos := Json.arr [], downloaded_files := [] }
  | some r =>
    if !pythonTruthy r then
      Except.ok { status := Json.str "error", message := Json.str "Failed to check status",
                  videos := Json.arr [], downloaded_files := [] }
    else
      match pyGet r "code" with
      | Except.error e => Except.error e
      | Except.ok code =>
        if pyNeZero code then
          match pyGetD r "message" (Json.str "Unknown API error") with
          | Except.error e => Except.error e
          | Except.ok msg =>
            Except.ok { status := Json.str "error", message := msg,
                        videos := Json.arr [], downloaded_files := [] }
        else
          match pyGetD r "data" (Json.obj []) with
          | Except.error e => Except.error e
          | Except.ok data =>
            match pyGetD data "task_status" (Json.str "") with
            | Except.error e => Except.error e
            | Except.ok ts =>
              match pyGetD data "task_status_msg" (Json.str "") with
              | Except.error e => Except.error e
              | Except.ok tsm =>
                if Json.beq ts (Json.str "succeed") then
                  match pyGetD data "task_result" (Json.obj []) with
                  | Except.error e => Except.error e
                  | Except.ok task_result =>
                    match pyGetD task_result "videos" (Json.arr []) with
                    | Except.error e => Except.error e
                    | Except.ok videos =>
                      if pythonTruthy videos then
                        match enumJson videos with
                        | Except.error e => Except.error e
                        | Except.ok vs =>
                          match printLoopCheck vs with
                          | Except.error e => Except.error e
                          | Except.ok _ =>
                            if download then
                              match downloadLoop namePfx results_dir dl vs.length vs 0 with
                              | Except.error e => Except.error e
                              | Except.ok files =>
                                Except.ok { status := ts, message := tsm, videos := videos,
                                            downloaded_files := files }
                            else
                              Except.ok { status := ts, message := tsm, videos := videos,
                                          downloaded_files := [] }
                      else
                        Except.ok { status := ts, message := tsm, videos := videos,
                                    downloaded_files := [] }
                else
                  Except.ok { status := ts, message := tsm, videos := Json.arr [],
                              downloaded_files := [] }

/-! ## Spec-side response shape and navigation

These definitions follow the wording of the specification (top-level
`code`, `data.task_status`, `data.task_result.videos[]` with absent
fields defaulting to empty/unknown) rather than the control flow of the
code; they are used to state refinement theorems about `pollStep`,
`monitor_task` and `check_and_download`. -/

/-- Whether a JSON value is a dict. -/
def isObjJson : Json → Bool
  | Json.obj _ => true
  | _ => false

/-- A well-shaped `videos` field: a list of dicts. -/
def videosWellShaped : Json → Bool
  | Json.arr vs => vs.all isObjJson
  | _ => false

/-- A response whose present fields have the container types the client
expects: a top-level dict whose `data` field (when present) is a dict,
whose `data.task_result` field (when present) is a dict, and whose
`data.task_result.videos` field (when present) is a list of dicts. -/
def respWellShaped (r : Json) : Bool :=
  match r with
  | Json.obj kvs =>
    match kvs.lookup "data" with
    | none => true
    | some (Json.obj dkvs) =>
      match dkvs.lookup "task_result" with
      | none => true
      | some (Json.obj tkvs) =>
        match tkvs.lookup "videos" with
        | none => true
        | some v => videosWellShaped v
      | some _ => false
    | some _ => false
  | _ => false

/-- A `check_status` result that is either a transport failure or a
well-shaped body. -/
def optWellShaped : Option Json → Bool
  | none => true
  | some r => respWellShaped r

/-- Field lookup on a dict, `none` elsewhere (spec-side navigation). -/
def jLookup (r : Json) (k : String) : Option Json :=
  match r with
  | Json.obj kvs => kvs.lookup k
  | _ => none

/-- The top-level `code` of a response (`None` when absent). -/
def respCode (r : Json) : Json := (jLookup r "code").getD Json.null

/-- The `data` object of a response (empty when absent). -/
def respData (r : Json) : Json := (jLookup r "data").getD (Json.obj [])

/-- The `data.task_status` of a response (empty string when absent). -/
def respTaskStatus (r : Json) : Json := (jLookup (respData r) "task_status").getD (Json.str "")

/-- The `data.task_result` of a response (empty when absent). -/
def respTaskResult (r : Json) : Json := (jLookup (respData r) "task_result").getD (Json.obj [])

/-- The `data.task_result.videos` of a response (empty list when absent). -/
def respVideos (r : Json) : Json := (jLookup (respTaskResult r) "videos").getD (Json.arr [])

/-- The spec-side success condition for one poll: a truthy body whose
`code` equals 0 and whose task status is the string `succeed`. -/
def respSucceedP (r : Json) : Bool :=
  pythonTruthy r && !pyNeZero (respCode r) && Json.beq (respTaskStatus r) (Json.str "succeed")

/-! ## Run lemmas for the monitor loop -/

theorem monitorGo_timeout (script : Nat → Option Json) (ci mw fuel i : Nat)
    (h : mw ≤ i * ci) :
    monitorGo script ci mw fuel i = MonResult.out none i (i * ci) := by
  rw [monitorGo.eq_def]
  simp [h]

theorem monitorGo_run_again (script : Nat → Option Json) (ci mw f i : Nat)
    (h1 : i * ci < mw) (h2 : pollStep (script i) = StepOut.again) :
    monitorGo script ci mw (f + 1) i = monitorGo script ci mw f (i + 1) := by
  rw [monitorGo.eq_def]
  simp [Nat.not_le.mpr h1, h2]

theorem monitorGo_run_ret (script : Nat → Option Json) (ci mw f i : Nat) (v : Option Json)
    (h1 : i * ci < mw) (h2 : pollStep (script i) = StepOut.ret v) :
    monitorGo script ci mw (f + 1) i = MonResult.out v (i + 1) (i * ci) := by
  rw [monitorGo.eq_def]
  simp [Nat.not_le.mpr h1, h2]

theorem monitorGo_run_raise (script : Nat → Option Json) (ci mw f i : Nat) (e : String)
    (h1 : i * ci < mw) (h2 : pollStep (script i) = StepOut.raise e) :
    monitorGo script ci mw (f + 1) i = MonResult.raised e (i + 1) (i * ci) := by
  rw [monitorGo.eq_def]
  simp [Nat.not_le.mpr h1, h2]

/-- The elapsed time at a timeout exit is below `mw + ci` provided the
previous iteration (if any) started before the deadline. -/
theorem timeoutElapsedBound (ci mw i : Nat) (hI : 0 < ci)
    (hinv : i = 0 ∨ (i - 1) * ci < mw) : i * ci < mw + ci := by
  rcases hinv with rfl | hlt
  · rw [Nat.zero_mul]
    exact Nat.lt_of_lt_of_le hI (Nat.le_add_left ci mw)
  · cases i with
    | zero =>
      rw [Nat.zero_mul]
      exact Nat.lt_of_lt_of_le hI (Nat.le_add_left ci mw)
    | succ j =>
      have hs : (j + 1) * ci = j * ci + ci := Nat.succ_mul j ci
      have hlt2 : j * ci < mw := by simpa using hlt
      rw [hs]
      exact Nat.add_lt_add_right hlt2 ci

/-- Fuel `mw + 1` never runs out when the interval is positive, and every
run ends with less than `mw + ci` seconds slept. -/
theorem monitorGo_not_fuelOut (script : Nat → Option Json) (ci mw : Nat) (hI : 0 < ci) :
    ∀ fuel i, mw + 1 ≤ fuel + i → (i = 0 ∨ (i - 1) * ci < mw) →
      monitorGo script ci mw fuel i ≠ MonResult.fuelOut ∧
      monElapsed (monitorGo script ci mw fuel i) < mw + ci := by
  intro fuel
  induction fuel with
  | zero =>
    intro i hfi hinv
    have hile : i ≤ i * ci := by
      calc i = i * 1 := (Nat.mul_one i).symm
        _ ≤ i * ci := Nat.mul_le_mul_left i hI
    have htm : mw ≤ i * ci := le_trans (by omega) hile
    rw [monitorGo_timeout script ci mw 0 i htm]
    exact ⟨by simp, timeoutElapsedBound ci mw i hI hinv⟩
  | succ f ih =>
    intro i hfi hinv
    by_cases htm : mw ≤ i * ci
    · rw [monitorGo_timeout script ci mw (f + 1) i htm]
      exact ⟨by simp, timeoutElapsedBound ci mw i hI hinv⟩
    · have hlt : i * ci < mw := Nat.not_le.mp htm
      rcases hstep : pollStep (script i) with _ | v0 | e0
      · rw [monitorGo_run_again script ci mw f i hlt hstep]
        exact ih (i + 1) (by omega) (Or.inr (by simpa using hlt))
      · rw [monitorGo_run_ret script ci mw f i v0 hlt hstep]
        exact ⟨by simp, Nat.lt_of_lt_of_le hlt (Nat.le_add_right mw ci)⟩
      · rw [monitorGo_run_raise script ci mw f i e0 hlt hstep]
        exact ⟨by simp, Nat.lt_of_lt_of_le hlt (Nat.le_add_right mw ci)⟩

/-- If the first `k` polls all continue the loop (and happen before the
deadline), the loop reaches poll `k`. -/
theorem monitorGo_reach (script : Nat → Option Json) (ci mw : Nat) :
    ∀ k f i, (∀ j, j < k → pollStep (script (i + j)) = StepOut.again ∧ (i + j) * ci < mw) →
      monitorGo script ci mw (f + k) i = monitorGo script ci mw f (i + k) := by
  intro k
  induction k with
  | zero => intro f i _; simp
  | succ n ih =>
    intro f i h
    have h0 := h 0 (Nat.succ_pos n)
    rw [Nat.add_zero] at h0
    rw [show f + (n + 1) = (f + n) + 1 by omega,
        monitorGo_run_again script ci mw (f + n) i h0.2 h0.1]
    have hrest := ih f (i + 1) (fun j hj => by
      have hh := h (j + 1) (by omega)
      rw [show i + (j + 1) = i + 1 + j by omega] at hh
      exact hh)
    rw [hrest, show i + 1 + n = i + (n + 1) by omega]

/-- Inversion: a run that returns a non-`None` value reached some poll
`k` whose step returned that value, after `k` continuing polls. -/
theorem monitorGo_out_some_inv (script : Nat → Option Json) (ci mw : Nat) :
    ∀ fuel i v p e, monitorGo script ci mw fuel i = MonResult.out (some v) p e →
      ∃ k, i ≤ k ∧ p = k + 1 ∧ e = k * ci ∧ k * ci < mw ∧
        (∀ j, i ≤ j → j < k → pollStep (script j) = StepOut.again) ∧
        pollStep (script k) = StepOut.ret (some v) := by
  intro fuel
  induction fuel with
  | zero =>
    intro i v p e h
    by_cases htm : mw ≤ i * ci
    · rw [monitorGo_timeout script ci mw 0 i htm] at h
      simp at h
    · rw [monitorGo.eq_def] at h
      simp [htm] at h
  | succ f ih =>
    intro i v p e h
    by_cases htm : mw ≤ i * ci
    · rw [monitorGo_timeout script ci mw (f + 1) i htm] at h
      simp at h
    · have hlt : i * ci < mw := Nat.not_le.mp htm
      rcases hstep : pollStep (script i) with _ | v0 | e0
      · rw [monitorGo_run_again script ci mw f i hlt hstep] at h
        obtain ⟨k, hik, hp, he, hkm, hprev, hk⟩ := ih (i + 1) v p e h
        refine ⟨k, by omega, hp, he, hkm, ?_, hk⟩
        intro j hij hjk
        by_cases hji : j = i
        · rw [hji]; exact hstep
        · exact hprev j (by omega) hjk
      · rw [monitorGo_run_ret script ci mw f i v0 hlt hstep] at h
        injection h with h1 h2 h3
        exact ⟨i, le_refl i, h2.symm, h3.symm, hlt,
          fun j hij hjk => absurd hij (by omega), h1 ▸ hstep⟩
      · rw [monitorGo_run_raise script ci mw f i e0 hlt hstep] at h
        simp at h

/-- A run over a script whose polls never raise never ends in a raised
exception. -/
theorem monitorGo_no_raise (script : Nat → Option Json) (ci mw : Nat)
    (hok : ∀ i e, pollStep (script i) ≠ StepOut.raise e) :
    ∀ fuel i e p t, monitorGo script ci mw fuel i ≠ MonResult.raised e p t := by
  intro fuel
  induction fuel with
  | zero =>
    intro i e p t h
    by_cases htm : mw ≤ i * ci
    · rw [monitorGo_timeout script ci mw 0 i htm] at h
      simp at h
    · rw [monitorGo.eq_def] at h
      simp [htm] at h
  | succ f ih =>
    intro i e p t h
    by_cases htm : mw ≤ i * ci
    · rw [monitorGo_timeout script ci mw (f + 1) i htm] at h
      simp at h
    · have hlt : i * ci < mw := Nat.not_le.mp htm
      rcases hstep : pollStep (script i) with _ | v0 | e0
      · rw [monitorGo_run_again script ci mw f i hlt hstep] at h
        exact ih (i + 1) e p t h
      · rw [monitorGo_run_ret script ci mw f i v0 hlt hstep] at h
        simp at h
      · exact absurd hstep (hok i e0)

/-- A poll whose body is a dict with a present `code` field that is
nonzero (in the Python sense) makes the loop return `None` at once. -/
theorem pollStep_api_error (kvs : List (String × Json)) (c : Json)
    (hcode : kvs.lookup "code" = some c) (hnz : pyNeZero c = true) :
    pollStep (some (Json.obj kvs)) = StepOut.ret none := by
  cases kvs with
  | nil => simp [List.lookup] at hcode
  | cons a l => simp [pollStep, pyGet, pyGetD, pythonTruthy, hcode, hnz]

/-- C1: if the monitor reaches a poll whose HTTP-successful response has
a nonzero top-level `code`, it returns `None` right after that poll —
exactly `k + 1` polls in total — with the elapsed time still strictly
below the deadline. -/
theorem monitor_stops_on_api_error
    (script : Nat → Option Json) (ci mw k : Nat) (kvs : List (String × Json)) (c : Json)
    (hI : 0 < ci)
    (hprev : ∀ j, j < k → pollStep (script j) = StepOut.again)
    (htime : k * ci < mw)
    (hresp : script k = some (Json.obj kvs))
    (hcode : kvs.lookup "code" = some c)
    (hnz : pyNeZero c = true) :
    monitor_task script ci mw = MonResult.out none (k + 1) (k * ci) ∧
    monElapsed (monitor_task script ci mw) < mw := by
  have hstep : pollStep (script k) = StepOut.ret none := by
    rw [hresp]; exact pollStep_api_error kvs c hcode hnz
  have heq : monitor_task script ci mw = MonResult.out none (k + 1) (k * ci) := by
    unfold monitor_task
    have hreach := monitorGo_reach script ci mw k (mw + 1 - k) 0 (fun j hj => by
      rw [Nat.zero_add]
      exact ⟨hprev j hj, lt_of_le_of_lt (Nat.mul_le_mul_right ci (Nat.le_of_lt hj)) htime⟩)
    have hk_le : k ≤ k * ci := by
      calc k = k * 1 := (Nat.mul_one k).symm
        _ ≤ k * ci := Nat.mul_le_mul_left k hI
    rw [show mw + 1 = (mw + 1 - k) + k by omega, hreach, Nat.zero_add]
    obtain ⟨f, hf⟩ : ∃ f, mw + 1 - k = f + 1 := ⟨mw - k, by omega⟩
    rw [hf, monitorGo_run_ret script ci mw f k none htime hstep]
  exact ⟨heq, by rw [heq]; simpa [monElapsed] using htime⟩

/-- C1 witness: with the very first poll answering `code = 5`, the
monitor returns `None` after exactly one poll and zero seconds slept. -/
theorem monitor_stops_on_api_error_witness :
    monitor_task (fun _ => some (Json.obj [("code", Json.num 5), ("message", Json.str "boom")])) 5 1800
      = MonResult.out none 1 0 ∧
    monElapsed (monitor_task (fun _ => some (Json.obj [("code", Json.num 5), ("message", Json.str "boom")])) 5 1800) < 1800 :=
  monitor_stops_on_api_error
    (fun _ => some (Json.obj [("code", Json.num 5), ("message", Json.str "boom")])) 5 1800 0
    [("code", Json.num 5), ("message", Json.str "boom")] (Json.num 5)
    (by decide) (fun j hj => absurd hj (Nat.not_lt_zero j)) (by decide) rfl rfl rfl

/-- C2: for every scripted remote behaviour — indefinite transport
failures, unknown statuses, perpetual processing — the monitor run with
positive interval never exhausts its fuel (i.e. the loop terminates) and
ends within `max_wait_time + check_interval` seconds of its start. -/
theorem monitor_terminates_within_deadline (script : Nat → Option Json) (ci mw : Nat)
    (hI : 0 < ci) :
    monitor_task script ci mw ≠ MonResult.fuelOut ∧
    monElapsed (monitor_task script ci mw) < mw + ci :=
  monitorGo_not_fuelOut script ci mw hI (mw + 1) 0 (by omega) (Or.inl rfl)

/-- C2 witness: a remote that never answers (perpetual transport
failure), interval 5, deadline 12: the run terminates and its elapsed
time is below 17. -/
theorem monitor_terminates_within_deadline_witness :
    monitor_task (fun _ => none) 5 12 ≠ MonResult.fuelOut ∧
    monElapsed (monitor_task (fun _ => none) 5 12) < 12 + 5 :=
  monitor_terminates_within_deadline (fun _ => none) 5 12 (by decide)

/-- C3: a prompt longer than 2500 code points makes `create_video` raise
`ValueError` with no network request issued and the client state
untouched; a prompt of length at most 2500 issues exactly one request. -/
theorem create_video_validation_and_single_call
    (s : KlingState) (now : Int) (prompt mn ar md dur : String) (remote : TransportOutcome) :
    (prompt.length > 2500 →
      create_video s now prompt mn ar md dur remote =
        (Except.error ("ValueError: Prompt length (" ++ toString prompt.length ++ ") exceeds 2500 character limit"), [], s)) ∧
    (prompt.length ≤ 2500 →
      ((create_video s now prompt mn ar md dur remote).2.1).length = 1) := by
  constructor
  · intro h
    simp [create_video, h]
  · intro h
    have hn : ¬ prompt.length > 2500 := by omega
    rcases hh : _get_headers s now with ⟨hdrs, s2⟩
    cases remote <;> simp [create_video, hn, hh]

/-- C3 witness: a 2501-character prompt is rejected with no request; the
prompt "hello" issues exactly one request. -/
theorem create_video_validation_and_single_call_witness :
    (create_video ⟨"ak", "sk", none, 0⟩ 0 (String.mk (List.replicate 2501 'a')) "kling-v1-6" "9:16" "std" "10" (TransportOutcome.success Json.null)).2.1 = [] ∧
    ((create_video ⟨"ak", "sk", none, 0⟩ 0 "hello" "kling-v1-6" "9:16" "std" "10" (TransportOutcome.success Json.null)).2.1).length = 1 := by
  constructor
  · have hgt : (String.mk (List.replicate 2501 'a')).length > 2500 := by
      show (List.replicate 2501 'a').length > 2500
      rw [List.length_replicate]
      omega
    have h := (create_video_validation_and_single_call ⟨"ak", "sk", none, 0⟩ 0
      (String.mk (List.replicate 2501 'a')) "kling-v1-6" "9:16" "std" "10"
      (TransportOutcome.success Json.null)).1 hgt
    rw [h]
  · exact (create_video_validation_and_single_call ⟨"ak", "sk", none, 0⟩ 0
      "hello" "kling-v1-6" "9:16" "std" "10" (TransportOutcome.success Json.null)).2 (by decide)

/-- C4: starting from a fresh client (no cached token), the first
`get_token` call at `t0` issues a token; a further call within the
1500-second refresh margin returns the bit-identical cached token and
leaves the cache unchanged (so any number of within-margin calls agree),
while a call past the margin issues a different token. -/
theorem token_cache_reuse_and_refresh (ak sk : String) (g t0 t1 t2 : Int)
    (hwithin : t1 - t0 < 1500) (hbeyond : t2 - t0 > 1500) :
    _get_jwt_token (_get_jwt_token ⟨ak, sk, none, g⟩ t0).2 t1
      = ((_get_jwt_token ⟨ak, sk, none, g⟩ t0).1, (_get_jwt_token ⟨ak, sk, none, g⟩ t0).2) ∧
    (_get_jwt_token (_get_jwt_token ⟨ak, sk, none, g⟩ t0).2 t2).1
      ≠ (_get_jwt_token ⟨ak, sk, none, g⟩ t0).1 := by
  have h0 : _get_jwt_token ⟨ak, sk, none, g⟩ t0
      = (encode_jwt_token ak sk t0, ⟨ak, sk, some (encode_jwt_token ak sk t0), t0⟩) := by
    simp [_get_jwt_token]
  rw [h0]
  constructor
  · have hc : ¬ (t1 - t0 > 1500) := by omega
    simp [_get_jwt_token, hc]
  · simp [_get_jwt_token, hbeyond, encode_jwt_token, JwtToken.mk.injEq]
    omega

/-- C4 witness: issue at time 0; the call at time 100 returns the same
token with the cache unchanged; the call at time 2000 returns a
different token. -/
theorem token_cache_reuse_and_refresh_witness :
    _get_jwt_token (_get_jwt_token ⟨"a", "s", none, 0⟩ 0).2 100
      = ((_get_jwt_token ⟨"a", "s", none, 0⟩ 0).1, (_get_jwt_token ⟨"a", "s", none, 0⟩ 0).2) ∧
    (_get_jwt_token (_get_jwt_token ⟨"a", "s", none, 0⟩ 0).2 2000).1
      ≠ (_get_jwt_token ⟨"a", "s", none, 0⟩ 0).1 :=
  token_cache_reuse_and_refresh "a" "s" 0 0 100 2000 (by decide) (by decide)

/-- The header list built by `_get_headers` is exactly the bearer token
of the (possibly refreshed) JWT plus the JSON content type. -/
theorem _get_headers_eq (s : KlingState) (now : Int) :
    (_get_headers s now).1
      = [("Authorization", HeaderValue.bearerToken (_get_jwt_token s now).1),
         ("Content-Type", HeaderValue.plain "application/json")] := by
  rcases hjt : _get_jwt_token s now with ⟨tok, s2⟩
  simp [_get_headers, hjt]

/-- The headers built by `_get_headers` always contain the bearer token
of the (possibly refreshed) JWT and the JSON content type. -/
theorem _get_headers_lookup (s : KlingState) (now : Int) :
    ((_get_headers s now).1).lookup "Authorization"
        = some (HeaderValue.bearerToken (_get_jwt_token s now).1) ∧
    ((_get_headers s now).1).lookup "Content-Type"
        = some (HeaderValue.plain "application/json") := by
  constructor
  · rw [_get_headers_eq]
    rfl
  · rw [_get_headers_eq]
    rfl

/-- C5 counterexample: the artifact download request issued by
`download_video` (a bare `requests.get(url, stream=True)`) carries no
`Authorization` header at all, so not every request of the client
attaches the bearer credential. -/
theorem download_request_lacks_auth_header :
    ((download_video (Json.str "http://cdn.example/video.mp4") "a.mp4" "videos" none
        (DownloadResp.stream [] true)).req.headers).lookup "Authorization" = none := rfl

/-- C5 amended: the submission requests (`create_video`,
`extend_video`) and the polling request (`check_status`) each carry
`Authorization: Bearer <token>` obtained from the token provider
together with the JSON content type, while the artifact download
request of `download_video` carries no custom headers at all. -/
theorem submit_and_poll_requests_carry_auth
    (s : KlingState) (now : Int) (prompt mn ar md dur video_id task_id operation : String)
    (p2 : Option String) (remote : TransportOutcome) :
    (∀ req ∈ (create_video s now prompt mn ar md dur remote).2.1,
      req.headers.lookup "Authorization"
          = some (HeaderValue.bearerToken (_get_jwt_token s now).1) ∧
      req.headers.lookup "Content-Type" = some (HeaderValue.plain "application/json")) ∧
    (∀ req ∈ (extend_video s now video_id p2 remote).2.1,
      req.headers.lookup "Authorization"
          = some (HeaderValue.bearerToken (_get_jwt_token s now).1) ∧
      req.headers.lookup "Content-Type" = some (HeaderValue.plain "application/json")) ∧
    (∀ req ∈ (check_status s now task_id operation remote).2.1,
      req.headers.lookup "Authorization"
          = some (HeaderValue.bearerToken (_get_jwt_token s now).1) ∧
      req.headers.lookup "Content-Type" = some (HeaderValue.plain "application/json")) ∧
    (∀ url fn rd pre dresp, (download_video url fn rd pre dresp).req.headers = []) := by
  have hl := _get_headers_lookup s now
  rcases hh : _get_headers s now with ⟨hdrs, s2⟩
  rw [hh] at hl
  refine ⟨?_, ?_, ?_, ?_⟩
  · intro req hmem
    by_cases hp : prompt.length > 2500
    · simp [create_video, hp] at hmem
    · cases remote <;> simp [create_video, hp, hh] at hmem <;> rw [hmem] <;> exact ⟨hl.1, hl.2⟩
  · intro req hmem
    by_cases hp : (strOptTruthy p2 && decide ((p2.getD "").length > 2500)) = true
    · simp [extend_video, hp] at hmem
    · cases remote <;> simp [extend_video, hp, hh] at hmem <;> rw [hmem] <;> exact ⟨hl.1, hl.2⟩
  · intro req hmem
    by_cases hop : operation = "extension"
    · cases remote <;> simp [check_status, hop, hh] at hmem <;> rw [hmem] <;> exact ⟨hl.1, hl.2⟩
    · cases remote <;> simp [check_status, hop, hh] at hmem <;> rw [hmem] <;> exact ⟨hl.1, hl.2⟩
  · intro url fn rd pre dresp
    rcases dresp with _ | _ | ⟨chunks, completed⟩
    · rfl
    · rfl
    · cases completed <;> rfl

/-- C5 amended witness: the concrete polling request of a fresh client
for task "t" carries both headers. -/
theorem submit_and_poll_requests_carry_auth_witness :
    ({ method := "GET", url := base_url ++ "/videos/text2video/" ++ "t",
       headers := [("Authorization", HeaderValue.bearerToken (encode_jwt_token "a" "s" 0)),
                   ("Content-Type", HeaderValue.plain "application/json")],
       payload := none, stream := false } : HttpRequest).headers.lookup "Authorization"
        = some (HeaderValue.bearerToken (encode_jwt_token "a" "s" 0)) ∧
    ({ method := "GET", url := base_url ++ "/videos/text2video/" ++ "t",
       headers := [("Authorization", HeaderValue.bearerToken (encode_jwt_token "a" "s" 0)),
                   ("Content-Type", HeaderValue.plain "application/json")],
       payload := none, stream := false } : HttpRequest).headers.lookup "Content-Type"
        = some (HeaderValue.plain "application/json") :=
  (submit_and_poll_requests_carry_auth ⟨"a", "s", none, 0⟩ 0 "p" "m" "9:16" "std" "10" "v" "t"
      "creation" none (TransportOutcome.success Json.null)).2.2.1 _ (List.mem_cons_self _ _)

/-- C6 counterexample: a transport failure after one 3-byte chunk has
been streamed makes `download_video` return `None`, yet the partially
written file (that single chunk) is left at the destination path. -/
theorem download_midstream_failure_leaves_file :
    (download_video (Json.str "http://cdn.example/v.mp4") "clip.mp4" "videos" none
        (DownloadResp.stream [[1, 2, 3]] false)).ret = none ∧
    (download_video (Json.str "http://cdn.example/v.mp4") "clip.mp4" "videos" none
        (DownloadResp.stream [[1, 2, 3]] false)).fileContent = some [[1, 2, 3]] :=
  ⟨rfl, rfl⟩

/-- C6 amended: every transport failure makes `download_video` return
`None`; a failure before streaming begins (connection error or HTTP
error status) leaves the destination untouched, but a failure during
streaming leaves the partially written chunks at the destination path;
only a completed stream returns the path. -/
theorem download_failure_reporting
    (url : Json) (fn rd : String) (pre : Option (List (List Nat))) (chunks : List (List Nat)) :
    (download_video url fn rd pre DownloadResp.connFailure).ret = none ∧
    (download_video url fn rd pre DownloadResp.connFailure).fileContent = pre ∧
    (download_video url fn rd pre DownloadResp.httpError).ret = none ∧
    (download_video url fn rd pre DownloadResp.httpError).fileContent = pre ∧
    (download_video url fn rd pre (DownloadResp.stream chunks false)).ret = none ∧
    (download_video url fn rd pre (DownloadResp.stream chunks false)).fileContent = some chunks ∧
    (download_video url fn rd pre (DownloadResp.stream chunks true)).ret = some (rd ++ "/" ++ fn) :=
  ⟨rfl, rfl, rfl, rfl, rfl, rfl, rfl⟩

/-- C7 counterexample: two completed artifacts that share the id "x",
downloaded with no filename prefix, are both written to the same local
path `videos/x_.mp4` — the produced paths collide. -/
theorem duplicate_ids_collide_on_download :
    check_and_download (some (Json.obj [("code", Json.num 0),
        ("data", Json.obj [("task_status", Json.str "succeed"),
          ("task_result", Json.obj [("videos", Json.arr
            [Json.obj [("id", Json.str "x"), ("url", Json.str "u1")],
             Json.obj [("id", Json.str "x"), ("url", Json.str "u2")]])])])]))
      true none "videos" (fun _ => DownloadResp.stream [] true)
      = Except.ok { status := Json.str "succeed", message := Json.str "",
                    videos := Json.arr
                      [Json.obj [("id", Json.str "x"), ("url", Json.str "u1")],
                       Json.obj [("id", Json.str "x"), ("url", Json.str "u2")]],
                    downloaded_files := ["videos/x_.mp4", "videos/x_.mp4"] } ∧
    ¬ (["videos/x_.mp4", "videos/x_.mp4"] : List String).Nodup :=
  ⟨rfl, by decide⟩

/-- C7 amended: with a (truthy) filename prefix, two artifacts of one
task receive the distinct index-suffixed names `<pfx>_1.mp4` and
`<pfx>_2.mp4`; with no prefix the names derive from the artifact ids and
are distinct whenever the rendered ids are distinct — in particular two
artifacts with ids absent get the distinct defaults `video_1_.mp4` and
`video_2_.mp4` — but artifacts sharing an id collide. -/
theorem video_filenames_distinctness
    (p : String) (hp : p ≠ "") (id1 id2 : Json) (hid : pyStr id1 ≠ pyStr id2) :
    videoFilename (some p) 2 0 id1 ≠ videoFilename (some p) 2 1 id2 ∧
    videoFilename none 2 0 id1 ≠ videoFilename none 2 1 id2 ∧
    videoFilename none 2 0 (Json.str "video_1") ≠ videoFilename none 2 1 (Json.str "video_2") := by
  have hsp : strOptTruthy (some p) = true := by simp [strOptTruthy, hp]
  refine ⟨?_, ?_, by decide⟩
  · simp only [videoFilename, hsp, if_true, Option.getD]
    intro h
    simp only [show (2 : Nat) > 1 by decide, if_true] at h
    rw [show (toString (0 + 1) : String) = "1" from rfl,
        show (toString (1 + 1) : String) = "2" from rfl] at h
    have hdata := congrArg String.data h
    simp only [String.data_append, List.append_assoc] at hdata
    have hcanc := List.append_cancel_left hdata
    exact absurd hcanc (by decide)
  · simp only [videoFilename, strOptTruthy, Bool.false_eq_true, if_false]
    intro h
    have hdata := congrArg String.data h
    simp only [String.data_append] at hdata
    have hcanc := List.append_cancel_right hdata
    exact hid (String.ext hcanc)

/-- C7 amended witness: prefix "clip" gives `clip_1.mp4` versus
`clip_2.mp4`; ids "a" and "b" give `a_.mp4` versus `b_.mp4`; absent ids
give `video_1_.mp4` versus `video_2_.mp4`. -/
theorem video_filenames_distinctness_witness :
    videoFilename (some "clip") 2 0 (Json.str "a") ≠ videoFilename (some "clip") 2 1 (Json.str "b") ∧
    videoFilename none 2 0 (Json.str "a") ≠ videoFilename none 2 1 (Json.str "b") ∧
    videoFilename none 2 0 (Json.str "video_1") ≠ videoFilename none 2 1 (Json.str "video_2") :=
  video_filenames_distinctness "clip" (by decide) (Json.str "a") (Json.str "b") (by decide)

/-- On a well-shaped response body the loop body of `monitor_task` acts
exactly as the spec-side navigation describes: falsy bodies retry,
nonzero `code` returns `None`, status `succeed` returns the (defaulted)
videos value, status `failed` returns `None`, anything else retries —
and no exception is raised. -/
theorem pollStep_wellShaped (r : Json) (h : respWellShaped r = true) :
    pollStep (some r) =
      (if !pythonTruthy r then StepOut.again
       else if pyNeZero (respCode r) then StepOut.ret none
       else if Json.beq (respTaskStatus r) (Json.str "succeed") then StepOut.ret (some (respVideos r))
       else if Json.beq (respTaskStatus r) (Json.str "failed") then StepOut.ret none
       else StepOut.again) := by
  cases r with
  | null => simp [respWellShaped] at h
  | bool b => simp [respWellShaped] at h
  | num n => simp [respWellShaped] at h
  | str s => simp [respWellShaped] at h
  | arr l => simp [respWellShaped] at h
  | obj kvs =>
    rcases hd : kvs.lookup "data" with _ | d
    · simp [pollStep, pyGet, pyGetD, respCode, respData, respTaskStatus, respTaskResult,
            respVideos, jLookup, hd, List.lookup]
    · cases d with
      | obj dkvs =>
        rcases ht2 : dkvs.lookup "task_result" with _ | t
        · simp [pollStep, pyGet, pyGetD, respCode, respData, respTaskStatus, respTaskResult,
                respVideos, jLookup, hd, ht2, List.lookup]
        · cases t with
          | obj tkvs =>
            simp [pollStep, pyGet, pyGetD, respCode, respData, respTaskStatus, respTaskResult,
                  respVideos, jLookup, hd, ht2]
          | null => simp [respWellShaped, hd, ht2] at h
          | bool b => simp [respWellShaped, hd, ht2] at h
          | num n => simp [respWellShaped, hd, ht2] at h
          | str s => simp [respWellShaped, hd, ht2] at h
          | arr l => simp [respWellShaped, hd, ht2] at h
      | null => simp [respWellShaped, hd] at h
      | bool b => simp [respWellShaped, hd] at h
      | num n => simp [respWellShaped, hd] at h
      | str s => simp [respWellShaped, hd] at h
      | arr l => simp [respWellShaped, hd] at h

/-- A well-shaped poll never raises. -/
theorem pollStep_wellShaped_no_raise (r : Json) (h : respWellShaped r = true) (e : String) :
    pollStep (some r) ≠ StepOut.raise e := by
  intro heq
  rw [pollStep_wellShaped r h] at heq
  cases hq : pythonTruthy r <;>
    cases hz : pyNeZero (respCode r) <;>
      cases hs : Json.beq (respTaskStatus r) (Json.str "succeed") <;>
        cases hf : Json.beq (respTaskStatus r) (Json.str "failed") <;>
          simp [hq, hz, hs, hf] at heq

/-- The printing loop succeeds on a list of dicts. -/
theorem printLoopCheck_ok : ∀ vs : List Json, vs.all isObjJson = true →
    printLoopCheck vs = Except.ok () := by
  intro vs
  induction vs with
  | nil => intro _; rfl
  | cons v rest ih =>
    intro hall
    rw [List.all_cons, Bool.and_eq_true] at hall
    cases v with
    | obj okvs => simpa [printLoopCheck] using ih hall.2
    | null => simp [isObjJson] at hall
    | bool b => simp [isObjJson] at hall
    | num n => simp [isObjJson] at hall
    | str s => simp [isObjJson] at hall
    | arr l => simp [isObjJson] at hall

/-- The download loop succeeds on a list of dicts. -/
theorem downloadLoop_isOk (namePfx : Option String) (rdir : String) (dl : Nat → DownloadResp)
    (numV : Nat) : ∀ (vs : List Json) (i : Nat), vs.all isObjJson = true →
    (downloadLoop namePfx rdir dl numV vs i).isOk = true := by
  intro vs
  induction vs with
  | nil => intro i _; rfl
  | cons v rest ih =>
    intro i hall
    rw [List.all_cons, Bool.and_eq_true] at hall
    cases v with
    | obj okvs =>
      have hrest := ih (i + 1) hall.2
      rcases hr : downloadLoop namePfx rdir dl numV rest (i + 1) with e | tail
      · rw [hr] at hrest
        simp [Except.isOk, Except.toBool] at hrest
      · simp only [downloadLoop, pyGet, pyGetD, hr]
        split
        · split <;> rfl
        · rfl
    | null => simp [isObjJson] at hall
    | bool b => simp [isObjJson] at hall
    | num n => simp [isObjJson] at hall
    | str s => simp [isObjJson] at hall
    | arr l => simp [isObjJson] at hall

/-- `check_and_download` never raises on a transport failure or a
well-shaped body: every branch produces a result dict. -/
theorem check_and_download_wellShaped_ok
    (resp : Option Json) (download : Bool) (namePfx : Option String) (rdir : String)
    (dl : Nat → DownloadResp) (h : optWellShaped resp = true) :
    (check_and_download resp download namePfx rdir dl).isOk = true := by
  have hbe : Json.beq (Json.str "") (Json.str "succeed") = false := rfl
  have hte : pythonTruthy (Json.arr []) = false := rfl
  cases resp with
  | none => rfl
  | some r =>
    have hws : respWellShaped r = true := h
    cases r with
    | null => simp [respWellShaped] at hws
    | bool b => simp [respWellShaped] at hws
    | num n => simp [respWellShaped] at hws
    | str s => simp [respWellShaped] at hws
    | arr l => simp [respWellShaped] at hws
    | obj kvs =>
      rcases hd : kvs.lookup "data" with _ | d
      · simp only [check_and_download, pyGet, pyGetD, hd, hbe, List.lookup, Option.getD_none, Option.getD_some]
        repeat' split
        all_goals first | rfl | simp_all [Except.isOk, Except.toBool, enumJson, printLoopCheck]
      · cases d with
        | obj dkvs =>
          cases hs : Json.beq ((dkvs.lookup "task_status").getD (Json.str "")) (Json.str "succeed") with
          | false =>
            simp only [check_and_download, pyGet, pyGetD, hd, hs, Option.getD_none, Option.getD_some]
            repeat' split
            all_goals first | rfl | simp_all [Except.isOk, Except.toBool, enumJson, printLoopCheck]
          | true =>
            rcases ht2 : dkvs.lookup "task_result" with _ | t
            · simp only [check_and_download, pyGet, pyGetD, hd, hs, ht2, hte, List.lookup, Option.getD_none, Option.getD_some]
              repeat' split
              all_goals first | rfl | simp_all [Except.isOk, Except.toBool, enumJson, printLoopCheck]
            · cases t with
              | obj tkvs =>
                rcases hv : tkvs.lookup "videos" with _ | v
                · simp only [check_and_download, pyGet, pyGetD, hd, hs, ht2, hv, hte, Option.getD_none, Option.getD_some]
                  repeat' split
                  all_goals first | rfl | simp_all [Except.isOk, Except.toBool, enumJson, printLoopCheck]
                · have hvw : videosWellShaped v = true := by
                    simpa [respWellShaped, hd, ht2, hv] using hws
                  cases v with
                  | arr vl =>
                    have hall : vl.all isObjJson = true := by
                      simpa [videosWellShaped] using hvw
                    have hple := printLoopCheck_ok vl hall
                    have hdlk := downloadLoop_isOk namePfx rdir dl vl.length vl 0 hall
                    rcases hdl : downloadLoop namePfx rdir dl vl.length vl 0 with e | files
                    · rw [hdl] at hdlk
                      simp [Except.isOk, Except.toBool] at hdlk
                    · simp only [check_and_download, pyGet, pyGetD, hd, hs, ht2, hv,
                                 enumJson, hple, hdl, Option.getD_none, Option.getD_some]
                      repeat' split
                      all_goals rfl
                  | null => simp [videosWellShaped] at hvw
                  | bool b => simp [videosWellShaped] at hvw
                  | num n => simp [videosWellShaped] at hvw
                  | str s => simp [videosWellShaped] at hvw
                  | obj o => simp [videosWellShaped] at hvw
              | null => simp [respWellShaped, hd, ht2] at hws
              | bool b => simp [respWellShaped, hd, ht2] at hws
              | num n => simp [respWellShaped, hd, ht2] at hws
              | str s => simp [respWellShaped, hd, ht2] at hws
              | arr l => simp [respWellShaped, hd, ht2] at hws
        | null => simp [respWellShaped, hd] at hws
        | bool b => simp [respWellShaped, hd] at hws
        | num n => simp [respWellShaped, hd] at hws
        | str s => simp [respWellShaped, hd] at hws
        | arr l => simp [respWellShaped, hd] at hws

/-- C8 counterexample: a response whose `data` field is a string rather
than a dict makes `monitor_task` raise `AttributeError` (Python calls
`.get` on a non-dict), so not every remote response shape degrades to a
safe default. -/
theorem malformed_data_field_raises :
    monitor_task (fun _ => some (Json.obj [("code", Json.num 0), ("data", Json.str "oops")])) 5 1800
      = MonResult.raised "AttributeError" 1 0 := rfl

/-- C8 amended: for every response whose present fields have the
expected container types (top-level dict; `data`, `task_result` dicts;
`videos` a list of dicts), monitoring and status checking never raise —
absent fields degrade to defaults — and any status other than `succeed`
and `failed` (including the defaulted empty status) is treated as
non-terminal: the loop just polls again. -/
theorem wellshaped_responses_never_raise :
    (∀ (script : Nat → Option Json) (ci mw : Nat),
        (∀ i, optWellShaped (script i) = true) →
        ∀ e p t, monitor_task script ci mw ≠ MonResult.raised e p t) ∧
    (∀ (resp : Option Json) (download : Bool) (namePfx : Option String) (rdir : String)
        (dl : Nat → DownloadResp), optWellShaped resp = true →
        (check_and_download resp download namePfx rdir dl).isOk = true) ∧
    (∀ r : Json, respWellShaped r = true → pythonTruthy r = true →
        pyNeZero (respCode r) = false →
        Json.beq (respTaskStatus r) (Json.str "succeed") = false →
        Json.beq (respTaskStatus r) (Json.str "failed") = false →
        pollStep (some r) = StepOut.again) := by
  refine ⟨?_, ?_, ?_⟩
  · intro script ci mw hW e p t
    have hok : ∀ i e2, pollStep (script i) ≠ StepOut.raise e2 := by
      intro i e2
      cases hsc : script i with
      | none => simp [pollStep]
      | some r =>
        have hr : respWellShaped r = true := by
          have hi := hW i
          rw [hsc] at hi
          simpa [optWellShaped] using hi
        exact pollStep_wellShaped_no_raise r hr e2
    exact monitorGo_no_raise script ci mw hok (mw + 1) 0 e p t
  · exact fun resp download namePfx rdir dl hr =>
      check_and_download_wellShaped_ok resp download namePfx rdir dl hr
  · intro r hr hq hz hsu hf
    rw [pollStep_wellShaped r hr]
    simp [hq, hz, hsu, hf]

/-- C8 amended witness: a script of minimal well-shaped bodies never
makes the monitor raise; a falsy dict body yields an ok result dict; a
well-shaped `processing` body makes the loop poll again. -/
theorem wellshaped_responses_never_raise_witness :
    monitor_task (fun _ => some (Json.obj [("code", Json.num 0)])) 5 7
      ≠ MonResult.raised "AttributeError" 1 0 ∧
    (check_and_download (some (Json.obj [])) true none "videos"
        (fun _ => DownloadResp.connFailure)).isOk = true ∧
    pollStep (some (Json.obj [("code", Json.num 0),
        ("data", Json.obj [("task_status", Json.str "processing")])])) = StepOut.again := by
  refine ⟨?_, ?_, ?_⟩
  · exact wellshaped_responses_never_raise.1 (fun _ => some (Json.obj [("code", Json.num 0)]))
      5 7 (fun i => rfl) "AttributeError" 1 0
  · exact wellshaped_responses_never_raise.2.1 _ true none "videos" _ rfl
  · exact wellshaped_responses_never_raise.2.2 _ rfl rfl rfl rfl rfl

/-- C9 counterexample: passing the empty string as the access key — a
parameter is passed, so the key is not absent, and the secret key is
also passed — still fails construction with `ValueError`. -/
theorem empty_param_key_fails_construction :
    (kling_init (some "") (some "sk") none none).1
      = Except.error "ValueError: Access key and secret key must be provided either as parameters or environment variables (KLING_ACCESS_KEY, KLING_SECRET)" := rfl

/-- C9 amended: construction succeeds exactly when both resolved keys
(the parameter when truthy, otherwise the environment value) are
non-empty strings; it fails with `ValueError` otherwise, and in either
case no network request is issued during construction. -/
theorem init_succeeds_iff_nonempty_keys (akp skp ake ske : Option String) :
    ((kling_init akp skp ake ske).1.isOk = true ↔
      (strOptTruthy (pyOrOpt akp ake) = true ∧ strOptTruthy (pyOrOpt skp ske) = true)) ∧
    (kling_init akp skp ake ske).2 = [] := by
  constructor
  · cases ha : strOptTruthy (pyOrOpt akp ake) <;> cases hb : strOptTruthy (pyOrOpt skp ske) <;>
      simp [kling_init, ha, hb, Except.isOk, Except.toBool]
  · cases ha : strOptTruthy (pyOrOpt akp ake) <;> cases hb : strOptTruthy (pyOrOpt skp ske) <;>
      simp [kling_init, ha, hb]

/-- C10 counterexample: a `succeed` response whose `videos` field is the
number 5 makes `monitor_task` return the value 5 — the final status is
`succeed` but the return value is not a list. -/
theorem succeed_can_return_non_list :
    monitor_task (fun _ => some (Json.obj [("code", Json.num 0),
        ("data", Json.obj [("task_status", Json.str "succeed"),
          ("task_result", Json.obj [("videos", Json.num 5)])])])) 5 1800
      = MonResult.out (some (Json.num 5)) 1 0 ∧
    (match Json.num 5 with | Json.arr _ => true | _ => false) = false :=
  ⟨rfl, rfl⟩

/-- C10 amended: over well-shaped responses the monitor returns a
non-None value exactly when the run reaches a poll whose body is truthy
with code 0 and `task_status` the string `succeed`; the returned value
is then the (defaulted, possibly empty) videos value of that response;
every other outcome — failed status, nonzero code, deadline expiry —
returns None; and an empty-list success is Python-falsy exactly like
None, so truthiness-testing callers cannot distinguish the two. -/
theorem monitor_return_characterization
    (script : Nat → Option Json) (ci mw : Nat) (hI : 0 < ci)
    (hW : ∀ i, optWellShaped (script i) = true) :
    ((∃ v p e, monitor_task script ci mw = MonResult.out (some v) p e) ↔
      (∃ k r, k * ci < mw ∧ (∀ j, j < k → pollStep (script j) = StepOut.again) ∧
        script k = some r ∧ respSucceedP r = true)) ∧
    (∀ v p e, monitor_task script ci mw = MonResult.out (some v) p e →
      ∃ k r, p = k + 1 ∧ script k = some r ∧ respSucceedP r = true ∧ v = respVideos r) ∧
    optTruthy (some (Json.arr [])) = optTruthy none := by
  have hws : ∀ k r, script k = some r → respWellShaped r = true := by
    intro k r hsc
    have hk := hW k
    rw [hsc] at hk
    simpa [optWellShaped] using hk
  have hstep : ∀ r v, respWellShaped r = true →
      (pollStep (some r) = StepOut.ret (some v) ↔
        (respSucceedP r = true ∧ v = respVideos r)) := by
    intro r v hr
    rw [pollStep_wellShaped r hr]
    cases hq : pythonTruthy r <;>
      cases hz : pyNeZero (respCode r) <;>
        cases hsu : Json.beq (respTaskStatus r) (Json.str "succeed") <;>
          cases hf : Json.beq (respTaskStatus r) (Json.str "failed") <;>
            simp [respSucceedP, hq, hz, hsu, hf, eq_comm]
  refine ⟨⟨?_, ?_⟩, ?_, rfl⟩
  · rintro ⟨v, p, e, hmon⟩
    obtain ⟨k, h0k, hp, he, hkm, hprev, hk⟩ :=
      monitorGo_out_some_inv script ci mw (mw + 1) 0 v p e hmon
    cases hsc : script k with
    | none => rw [hsc] at hk; simp [pollStep] at hk
    | some r =>
      rw [hsc] at hk
      have hr := hws k r hsc
      have hx := (hstep r v hr).mp hk
      exact ⟨k, r, hkm, fun j hj => hprev j (Nat.zero_le j) hj, hsc, hx.1⟩
  · rintro ⟨k, r, hkm, hprev, hsc, hsucc⟩
    have hr := hws k r hsc
    have hk : pollStep (script k) = StepOut.ret (some (respVideos r)) := by
      rw [hsc]
      exact (hstep r (respVideos r) hr).mpr ⟨hsucc, rfl⟩
    refine ⟨respVideos r, k + 1, k * ci, ?_⟩
    unfold monitor_task
    have hk_le : k ≤ k * ci := by
      calc k = k * 1 := (Nat.mul_one k).symm
        _ ≤ k * ci := Nat.mul_le_mul_left k hI
    have hkmw : k < mw := lt_of_le_of_lt hk_le hkm
    have hreach := monitorGo_reach script ci mw k (mw + 1 - k) 0 (fun j hj => by
      rw [Nat.zero_add]
      exact ⟨hprev j hj, lt_of_le_of_lt (Nat.mul_le_mul_right ci (Nat.le_of_lt hj)) hkm⟩)
    rw [show mw + 1 = (mw + 1 - k) + k by omega, hreach, Nat.zero_add]
    obtain ⟨f, hf⟩ : ∃ f, mw + 1 - k = f + 1 := ⟨mw - k, by omega⟩
    rw [hf, monitorGo_run_ret script ci mw f k (some (respVideos r)) hkm hk]
  · intro v p e hmon
    obtain ⟨k, h0k, hp, he, hkm, hprev, hk⟩ :=
      monitorGo_out_some_inv script ci mw (mw + 1) 0 v p e hmon
    cases hsc : script k with
    | none => rw [hsc] at hk; simp [pollStep] at hk
    | some r =>
      rw [hsc] at hk
      have hr := hws k r hsc
      have hx := (hstep r v hr).mp hk
      exact ⟨k, r, hp, hsc, hx.1, hx.2⟩

/-- C10 amended witness: a first poll that succeeds with an empty videos
list returns `some []` after one poll, and that empty list is as falsy
as `None` for the caller. -/
theorem monitor_return_characterization_witness :
    monitor_task (fun _ => some (Json.obj [("code", Json.num 0),
        ("data", Json.obj [("task_status", Json.str "succeed"),
          ("task_result", Json.obj [("videos", Json.arr [])])])])) 5 1800
      = MonResult.out (some (Json.arr [])) 1 0 ∧
    optTruthy (some (Json.arr [])) = optTruthy none := by
  have h := (monitor_return_characterization (fun _ => some (Json.obj [("code", Json.num 0),
      ("data", Json.obj [("task_status", Json.str "succeed"),
        ("task_result", Json.obj [("videos", Json.arr [])])])])) 5 1800
      (by decide) (fun i => rfl)).2.2
  exact ⟨rfl, h⟩
